import Mathlib

/-!
Verification of the scheduled-publish dispatch engine of the
linkedinwarrior backend (backend/app/tasks.py, backend/app/scheduler.py,
backend/app/celery_app.py, backend/app/routes/content.py).

Timestamps are modelled as integers (seconds); the Python code passes ISO
strings whose ordering coincides with the ordering of the instants they
encode.  Publisher calls are modelled by their outcome: `some postId`
means the network publish returned that external id, `none` means it
raised.  Database updates are modelled as pure functions on the row.
-/

namespace LinkedinWarrior

/-- Lifecycle states of a content item (the `status` column of
`content_items`). -/
inductive Status where
  | draft
  | approved
  | scheduled
  | publishing
  | published
  | failed
deriving DecidableEq, Repr

/-- The stored `scheduled_at` value: either a well-formed ISO timestamp
encoding the instant `t`, or a stored string that Python's
`datetime.fromisoformat` rejects. -/
inductive SchedStamp where
  | iso (t : Int)
  | malformed (s : String)
deriving DecidableEq, Repr

/-- One row of the `content_items` table, restricted to the columns the
dispatch engine reads or writes. -/
structure ContentItem where
  id : String
  userId : String
  status : Status
  body : String
  imageUrl : Option String
  scheduledAt : Option SchedStamp
  publishedAt : Option Int
  linkedinPostId : Option String
  updatedAt : Int
deriving DecidableEq, Repr

/-- Result of the conditional update at tasks.py:98-101:
`update({status publishing, updated_at}).eq("id", post_id).eq("status", "scheduled")`.
Returns the new row together with the affected-row count (1 if the filter
matched, 0 otherwise). -/
def claimScheduledToPublishing (it : ContentItem) (now : Int) :
    ContentItem × Nat :=
  if it.status = Status.scheduled then
    ({ it with status := Status.publishing, updatedAt := now }, 1)
  else
    (it, 0)

/-- Outcome of one execution of `publish_post_task`: a normal return with
the external post id, a `self.retry(countdown)` raise, or the terminal
re-raise after the row was marked failed. -/
inductive TaskOutcome where
  | success (linkedinPostId : String)
  | retry (countdown : Nat)
  | terminalFailure
deriving DecidableEq, Repr

/-- Observable effect of one execution of `publish_post_task`: the row
after the execution, whether `_publish_via_unipile` was invoked, and the
task outcome. -/
structure AttemptResult where
  item : ContentItem
  publisherCalled : Bool
  outcome : TaskOutcome
deriving DecidableEq, Repr

/-- Celery `max_retries` of `publish_post_task` (tasks.py:79). -/
def max_retries : Nat := 3

/-- One execution of `publish_post_task` (tasks.py:84-141).
`retries` is `self.request.retries` (0 on the first execution).
`unipileAccountId` is the owning user's `unipile_account_id` (`none`
models both a missing credential, which raises `ValueError`, and a
missing user row).  `publishResult` is the outcome of the
`_publish_via_unipile` network call: `some pid` on success, `none` if it
raised.  All raises land in the single `except Exception` handler. -/
def publish_post_task (retries : Nat) (it : ContentItem)
    (unipileAccountId : Option String) (publishResult : Option String)
    (now : Int) : AttemptResult :=
  let it1 := if retries = 0 then (claimScheduledToPublishing it now).1 else it
  match unipileAccountId with
  | none =>
      if max_retries ≤ retries then
        { item := { it1 with status := Status.failed, updatedAt := now },
          publisherCalled := false,
          outcome := TaskOutcome.terminalFailure }
      else
        { item := it1,
          publisherCalled := false,
          outcome := TaskOutcome.retry (60 * 2 ^ retries) }
  | some _ =>
      match publishResult with
      | some pid =>
          { item := { it1 with
                        status := Status.published,
                        publishedAt := some now,
                        linkedinPostId := some pid,
                        updatedAt := now },
            publisherCalled := true,
            outcome := TaskOutcome.success pid }
      | none =>
          if max_retries ≤ retries then
            { item := { it1 with status := Status.failed, updatedAt := now },
              publisherCalled := true,
              outcome := TaskOutcome.terminalFailure }
          else
            { item := it1,
              publisherCalled := true,
              outcome := TaskOutcome.retry (60 * 2 ^ retries) }

/-- Aggregate view of a whole Celery retry chain for one post: the final
row, the list of retry countdowns in order, the number of Publisher
invocations, the row status after each execution, and the final
outcome. -/
structure ChainResult where
  item : ContentItem
  delays : List Nat
  publisherCalls : Nat
  statusTrace : List Status
  outcome : TaskOutcome
deriving DecidableEq, Repr

/-- Run the Celery retry chain of `publish_post_task` starting at retry
counter `retries`: a `self.retry` outcome re-executes the task with the
counter incremented, exactly as Celery does.  `publishResults n` is the
outcome of the Publisher call on the execution with counter `n`.  `fuel`
bounds the recursion; `max_retries + 2` is always enough. -/
def runChainFrom (fuel : Nat) (retries : Nat) (it : ContentItem)
    (unipileAccountId : Option String) (publishResults : Nat → Option String)
    (now : Int) : ChainResult :=
  match fuel with
  | 0 =>
      { item := it, delays := [], publisherCalls := 0, statusTrace := [],
        outcome := TaskOutcome.terminalFailure }
  | fuel + 1 =>
      let r := publish_post_task retries it unipileAccountId
        (publishResults retries) now
      match r.outcome with
      | TaskOutcome.retry c =>
          let rest := runChainFrom fuel (retries + 1) r.item unipileAccountId
            publishResults now
          { item := rest.item,
            delays := c :: rest.delays,
            publisherCalls := (if r.publisherCalled then 1 else 0)
              + rest.publisherCalls,
            statusTrace := r.item.status :: rest.statusTrace,
            outcome := rest.outcome }
      | o =>
          { item := r.item,
            delays := [],
            publisherCalls := if r.publisherCalled then 1 else 0,
            statusTrace := [r.item.status],
            outcome := o }

/-- The full retry chain of one enqueued publish task, which always starts
with `self.request.retries == 0`. -/
def runChain (it : ContentItem) (unipileAccountId : Option String)
    (publishResults : Nat → Option String) (now : Int) : ChainResult :=
  runChainFrom (max_retries + 2) 0 it unipileAccountId publishResults now

/-- Database `lte` filter on the stored `scheduled_at` value against the
bound `w`.  A NULL value never satisfies an SQL comparison; for a stored
string no well-formed timestamp explains, the comparison result is left
abstract via the parameter `malformedLE`. -/
def schedStampLE (sa : Option SchedStamp) (w : Int)
    (malformedLE : String → Bool) : Bool :=
  match sa with
  | none => false
  | some (SchedStamp.iso t) => decide (t ≤ w)
  | some (SchedStamp.malformed s) => malformedLE s

/-- A Celery task enqueued by `apply_async`: its `task_id` (the dedup
key), the positional args `[post id, user id, body]`, the `image_url`
kwarg, and the `countdown` in seconds. -/
structure EnqueuedTask where
  taskId : String
  args : String × String × String
  imageUrl : Option String
  countdown : Int
deriving DecidableEq, Repr

/-- Query of `enqueue_due_posts` (tasks.py:160-164):
`select(...).eq("status", "scheduled").lte("scheduled_at", window_end)`. -/
def dbSelectDue (rows : List ContentItem) (windowEnd : Int)
    (malformedLE : String → Bool) : List ContentItem :=
  rows.filter (fun it =>
    decide (it.status = Status.scheduled)
      && schedStampLE it.scheduledAt windowEnd malformedLE)

/-- Task built for one due post by the loop body of `enqueue_due_posts`
(tasks.py:169-186): the delay is `max(0, scheduled_at - now)` when the
stored value is present and `fromisoformat` parses it, and 0 when it is
missing (falsy) or the parse raises `(ValueError, TypeError)`; the
`task_id` is the f-string `publish-<post id>`. -/
def sweepTaskOf (post : ContentItem) (now : Int) : EnqueuedTask :=
  let delay : Int :=
    match post.scheduledAt with
    | some (SchedStamp.iso t) => max 0 (t - now)
    | some (SchedStamp.malformed _) => 0
    | none => 0
  { taskId := "publish-" ++ post.id,
    args := (post.id, post.userId, post.body),
    imageUrl := post.imageUrl,
    countdown := delay }

/-- The periodic producer task `enqueue_due_posts` (tasks.py:148-192):
window end is `now + timedelta(minutes=3)`; every selected post is fanned
out as one `publish_post_task.apply_async` call. -/
def enqueue_due_posts (rows : List ContentItem) (now : Int)
    (malformedLE : String → Bool) : List EnqueuedTask :=
  let window_end := now + 3 * 60
  (dbSelectDue rows window_end malformedLE).map (fun post =>
    sweepTaskOf post now)

/-- Cadence of a periodic job: a plain interval (seconds / minutes /
hours), a daily cron time, or a `crontab(minute=0, hour="*/k")` entry. -/
inductive Cadence where
  | everySeconds (s : Nat)
  | everyMinutes (m : Nat)
  | everyHours (h : Nat)
  | dailyAt (hour minute : Nat)
  | cronHourStep (step : Nat)
deriving DecidableEq, Repr

/-- The Celery Beat schedule of distributed mode (celery_app.py:51-64),
as pairs of the scheduled task name and its cadence. -/
def beat_schedule : List (String × Cadence) :=
  [("app.tasks.enqueue_due_posts", Cadence.everySeconds 120),
   ("app.tasks.daily_analytics_snapshot", Cadence.dailyAt 6 0),
   ("app.tasks.purge_old_history", Cadence.cronHourStep 6)]

/-- The APScheduler jobs of fallback mode (scheduler.py:156-163), as
pairs of the job id and its cadence. -/
def apschedulerJobs : List (String × Cadence) :=
  [("fire_scheduled_posts", Cadence.everyMinutes 1),
   ("daily_analytics_snapshot", Cadence.dailyAt 6 0),
   ("purge_old_history", Cadence.everyHours 6),
   ("purge_expired_emails", Cadence.everyHours 1)]

/-- Names of the `@shared_task` definitions registered with Celery in
tasks.py. -/
def celerySharedTasks : List String :=
  ["app.tasks.publish_post_task",
   "app.tasks.enqueue_due_posts",
   "app.tasks.analytics_snapshot_task",
   "app.tasks.daily_analytics_snapshot",
   "app.tasks.purge_old_history",
   "app.tasks.purge_expired_emails",
   "app.tasks.process_email_task"]

/-- Row shape returned by the fallback poller's query
(scheduler.py:64-68), which selects only `id, user_id, body`. -/
structure LegacyDueRow where
  id : String
  userId : String
  body : String
deriving DecidableEq, Repr

/-- Query of `_fire_scheduled_posts_legacy` (scheduler.py:64-68):
`select("id, user_id, body").eq("status", "scheduled").lte("scheduled_at", now)`. -/
def fireScheduledQuery (rows : List ContentItem) (now : Int)
    (malformedLE : String → Bool) : List LegacyDueRow :=
  (rows.filter (fun it =>
      decide (it.status = Status.scheduled)
        && schedStampLE it.scheduledAt now malformedLE)).map
    (fun it => { id := it.id, userId := it.userId, body := it.body })

/-- Argument record of one `publish_post` invocation
(services/unipile.py:35-41). -/
structure PublishCall where
  userId : String
  text : String
  imageBytes : Option String
deriving DecidableEq, Repr

/-- Default of the `image_bytes` parameter in the `publish_post`
signature (services/unipile.py:38). -/
def publish_post_default_image : Option String := none

/-- Publisher invocation made by the fallback poller's loop body
(scheduler.py:73): `publish_post(post["user_id"], post["body"])`, with
the image argument left at its default. -/
def legacyPublishCallOf (post : LegacyDueRow) : PublishCall :=
  { userId := post.userId, text := post.body,
    imageBytes := publish_post_default_image }

/-- All Publisher invocations of one fallback poll tick. -/
def legacyPublishCalls (rows : List ContentItem) (now : Int)
    (malformedLE : String → Bool) : List PublishCall :=
  (fireScheduledQuery rows now malformedLE).map legacyPublishCallOf

/-- Row update performed for one due post by the fallback poller
(scheduler.py:71-86): on Publisher success the row becomes `published`
with the returned id; on any raise it becomes `failed`.  `publishResult`
is `some pid` on success and `none` if `publish_post` raised. -/
def fireScheduledPostLegacyItem (it : ContentItem)
    (publishResult : Option String) (now : Int) : ContentItem :=
  match publishResult with
  | some pid =>
      { it with
          status := Status.published,
          publishedAt := some now,
          linkedinPostId := some pid,
          updatedAt := now }
  | none =>
      { it with status := Status.failed, updatedAt := now }

/-- Outcome of a successful `schedule_content` request: the updated row,
the task actually handed to `apply_async` (if any), and the response
status string. -/
structure ScheduleResponse where
  item : ContentItem
  enqueued : Option EnqueuedTask
  response : String
deriving DecidableEq, Repr

/-- Row update applied by the schedule route (routes/content.py:309-313):
status set to `scheduled` with the requested `scheduled_at`. -/
def scheduledUpdate (it : ContentItem) (schedAt now : Int) : ContentItem :=
  { it with
      status := Status.scheduled,
      scheduledAt := some (SchedStamp.iso schedAt),
      updatedAt := now }

/-- The `POST /{content_id}/schedule` route (routes/content.py:286-334).
`existing` is the ownership-filtered lookup result; a missing row yields
HTTP 404 and an already-`published` row yields HTTP 400.  Otherwise the
row is set to `scheduled` with the requested time, and when Celery mode
is active and `max(0, scheduled_at - now) <= 300` the route eagerly calls
`publish_post_task.apply_async` with that delay and
`task_id = "publish-" ++ contentId`; `enqueueRaises` models any raise
inside that best-effort block, which is swallowed by the bare
`except Exception: pass`. -/
def schedule_content (contentId : String) (userId : String)
    (existing : Option ContentItem) (schedAt now : Int)
    (useCelery : Bool) (enqueueRaises : Bool) :
    Except Nat ScheduleResponse :=
  match existing with
  | none => Except.error 404
  | some it =>
    if it.status = Status.published then Except.error 400
    else
      let it1 := scheduledUpdate it schedAt now
      let enq : Option EnqueuedTask :=
        if useCelery then
          let delay := max 0 (schedAt - now)
          if delay ≤ 300 then
            if enqueueRaises then none
            else some { taskId := "publish-" ++ contentId,
                        args := (contentId, userId, it.body),
                        imageUrl := it.imageUrl,
                        countdown := delay }
          else none
        else none
      Except.ok { item := it1, enqueued := enq, response := "scheduled" }

/-- Concrete `scheduled` row used to evaluate the definitions. -/
def sampleScheduled : ContentItem :=
  { id := "item-1", userId := "user-1", status := Status.scheduled,
    body := "hello linkedin", imageUrl := some "https://img/a.png",
    scheduledAt := some (SchedStamp.iso 100), publishedAt := none,
    linkedinPostId := none, updatedAt := 0 }

/-- Concrete row already claimed by another execution (status
`publishing`). -/
def samplePublishing : ContentItem :=
  { sampleScheduled with id := "item-2", status := Status.publishing }

/-- Concrete row that has already been published. -/
def samplePublished : ContentItem :=
  { sampleScheduled with
      id := "item-3", status := Status.published,
      publishedAt := some 50, linkedinPostId := some "orig-post" }

/-- Claim C1, counterexample: on a first attempt (`n == 0`) for an item
that is already `publishing`, the filtered scheduled→publishing update
affects zero rows, yet the attempt does not abort — the Publisher is
still called and the row is updated further (here to `published`). -/
theorem cas_zero_rows_still_calls_publisher :
    (claimScheduledToPublishing samplePublishing 10).2 = 0 ∧
    (publish_post_task 0 samplePublishing (some "acct-1") (some "ext-1") 10).publisherCalled
      = true ∧
    (publish_post_task 0 samplePublishing (some "acct-1") (some "ext-1") 10).item.status
      = Status.published := by
  decide

/-- Claim C1, amended: the scheduled→publishing transition is a
conditional update filtered on id and `status = 'scheduled'` — it affects
one row exactly when the status is still `scheduled`, and a second claim
right after it always affects zero rows — but the affected-row count is
never inspected: even when zero rows are affected the attempt proceeds
to call the Publisher instead of aborting. -/
theorem cas_filtered_update_never_checked (it : ContentItem)
    (acct pid : String) (now : Int) :
    (claimScheduledToPublishing it now).2
        = (if it.status = Status.scheduled then 1 else 0) ∧
    (claimScheduledToPublishing it now).1.status
        = (if it.status = Status.scheduled then Status.publishing
           else it.status) ∧
    (claimScheduledToPublishing (claimScheduledToPublishing it now).1 now).2
        = 0 ∧
    (publish_post_task 0 it (some acct) (some pid) now).publisherCalled
        = true := by
  by_cases h : it.status = Status.scheduled <;>
    simp [claimScheduledToPublishing, publish_post_task, h]

/-- Claim C2: once an item is in `publishing`, no execution of the retry
chain ever sets its status back to `scheduled`, and the chain leaves the
item exactly `published` or `failed`. -/
theorem claimed_item_never_reverts (it : ContentItem)
    (acct : Option String) (pub : Nat → Option String) (now : Int)
    (h : it.status = Status.publishing) :
    Status.scheduled ∉ (runChain it acct pub now).statusTrace ∧
    ((runChain it acct pub now).item.status = Status.published ∨
     (runChain it acct pub now).item.status = Status.failed) := by
  rcases hacct : acct with _ | a
  · simp [runChain, runChainFrom, publish_post_task, max_retries,
      claimScheduledToPublishing, h]
  · rcases h0 : pub 0 with _ | p0 <;> rcases h1 : pub 1 with _ | p1 <;>
      rcases h2 : pub 2 with _ | p2 <;> rcases h3 : pub 3 with _ | p3 <;>
      simp [runChain, runChainFrom, publish_post_task, max_retries,
        claimScheduledToPublishing, h, h0, h1, h2, h3]

/-- Claim C2, witness at a concrete claimed item. -/
theorem claimed_item_never_reverts_witness :
    Status.scheduled
        ∉ (runChain samplePublishing (some "acct-1") (fun _ => some "ext-1") 0).statusTrace ∧
    ((runChain samplePublishing (some "acct-1") (fun _ => some "ext-1") 0).item.status
        = Status.published ∨
     (runChain samplePublishing (some "acct-1") (fun _ => some "ext-1") 0).item.status
        = Status.failed) :=
  claimed_item_never_reverts samplePublishing (some "acct-1")
    (fun _ => some "ext-1") 0 rfl

/-- Claim C3, counterexample: when the Publisher fails on the executions
with retry counter 0, 1 and 2 and succeeds on the execution with counter
3, the chain schedules exactly the delays 60, 120, 240 — three failed
attempts — and then performs a 4th Publisher call, ending `published`
rather than `failed`: `max_retries = 3` bounds the retries, not the
total number of attempts. -/
theorem retry_budget_allows_fourth_call :
    (runChain sampleScheduled (some "acct-1")
        (fun n => if n < 3 then none else some "ext-4") 0).delays
      = [60, 120, 240] ∧
    (runChain sampleScheduled (some "acct-1")
        (fun n => if n < 3 then none else some "ext-4") 0).publisherCalls = 4 ∧
    (runChain sampleScheduled (some "acct-1")
        (fun n => if n < 3 then none else some "ext-4") 0).item.status
      = Status.published := by
  decide

/-- Claim C3, amended: the retry delay after the failed execution with
retry counter `n` is `60 * 2 ^ n` seconds (60s, 120s, 240s for
n = 0, 1, 2); when every Publisher call fails, the chain performs 4
Publisher calls in total (the initial attempt plus `max_retries = 3`
retries), marks the item `failed` on the 4th failure, and performs no
5th call. -/
theorem backoff_delays_and_retry_budget (it : ContentItem)
    (acct : String) (now : Int) :
    (runChain it (some acct) (fun _ => none) now).delays = [60, 120, 240] ∧
    (runChain it (some acct) (fun _ => none) now).item.status
        = Status.failed ∧
    (runChain it (some acct) (fun _ => none) now).publisherCalls = 4 := by
  by_cases hs : it.status = Status.scheduled <;>
    simp [runChain, runChainFrom, publish_post_task, max_retries,
      claimScheduledToPublishing, hs]

/-- Claim C4, counterexample: a first attempt with no connected
`unipile_account_id` is not marked `failed` immediately — it leaves the
item `publishing` and schedules a retry with a 60-second backoff. -/
theorem missing_account_first_attempt_retries :
    (publish_post_task 0 sampleScheduled none none 0).outcome
        = TaskOutcome.retry 60 ∧
    (publish_post_task 0 sampleScheduled none none 0).item.status
        = Status.publishing ∧
    (publish_post_task 0 sampleScheduled none none 0).item.status
        ≠ Status.failed := by
  decide

/-- Claim C4, amended: a missing publishing credential raises inside the
generic exception handler and is treated like any other failure: the
chain retries with the same 60/120/240-second backoff and only marks the
item `failed` once the retry budget is exhausted; the Publisher is never
invoked on such a chain. -/
theorem missing_account_retried_then_failed (it : ContentItem)
    (pub : Nat → Option String) (now : Int) :
    (runChain it none pub now).delays = [60, 120, 240] ∧
    (runChain it none pub now).item.status = Status.failed ∧
    (runChain it none pub now).publisherCalls = 0 := by
  by_cases hs : it.status = Status.scheduled <;>
    simp [runChain, runChainFrom, publish_post_task, max_retries,
      claimScheduledToPublishing, hs]

/-- Claim C5, counterexample: the success and terminal-failure updates
filter on id only, so a late duplicate attempt for an item that is
already `published` overwrites it — a terminal failure sets its status
to `failed`, and a duplicate success overwrites its `published_at`. -/
theorem late_attempt_overwrites_published :
    (publish_post_task 3 samplePublished (some "acct-1") none 999).item.status
        = Status.failed ∧
    (publish_post_task 0 samplePublished (some "acct-1") (some "ext-new") 999).item.publishedAt
        = some 999 := by
  decide

/-- Claim C5, amended: the claim step never touches a `published` item
(its update is filtered on `status = 'scheduled'`) and the engine never
changes `body`; but the success and terminal-failure updates are
filtered on id alone, so a late or duplicate dispatch attempt can
overwrite a `published` item — setting `failed` over `published` on
terminal failure, and overwriting `published_at` on duplicate
success. -/
theorem published_item_not_protected (it : ContentItem)
    (acct pid : String) (now : Int)
    (h : it.status = Status.published) :
    (claimScheduledToPublishing it now).1 = it ∧
    (claimScheduledToPublishing it now).2 = 0 ∧
    (∀ r a p, (publish_post_task r it a p now).item.body = it.body) ∧
    (publish_post_task max_retries it (some acct) none now).item.status
        = Status.failed ∧
    (publish_post_task 0 it (some acct) (some pid) now).item.publishedAt
        = some now := by
  refine ⟨?_, ?_, ?_, ?_, ?_⟩
  · simp [claimScheduledToPublishing, h]
  · simp [claimScheduledToPublishing, h]
  · intro r a p
    rcases a with _ | acct2 <;> rcases p with _ | pid2 <;>
      by_cases h0 : r = 0 <;>
      simp [publish_post_task, claimScheduledToPublishing, h0, h] <;>
      split <;> simp
  · simp [publish_post_task, claimScheduledToPublishing, max_retries, h]
  · simp [publish_post_task, claimScheduledToPublishing, h]

/-- Claim C5, witness at a concrete published item. -/
theorem published_item_not_protected_witness :
    (claimScheduledToPublishing samplePublished 999).1 = samplePublished ∧
    (claimScheduledToPublishing samplePublished 999).2 = 0 ∧
    (∀ r a p,
      (publish_post_task r samplePublished a p 999).item.body
        = samplePublished.body) ∧
    (publish_post_task max_retries samplePublished (some "acct-1") none 999).item.status
        = Status.failed ∧
    (publish_post_task 0 samplePublished (some "acct-1") (some "ext-new") 999).item.publishedAt
        = some 999 :=
  published_item_not_protected samplePublished "acct-1" "ext-new" 999 rfl

/-- Claim C6, counterexample: in fallback mode a due item whose publish
attempt fails is marked `failed` immediately after that single attempt —
it does not remain `publishing` (the poller never even enters the
`publishing` state). -/
theorem legacy_failure_fails_immediately :
    (fireScheduledPostLegacyItem sampleScheduled none 7).status
        = Status.failed ∧
    (fireScheduledPostLegacyItem sampleScheduled none 7).status
        ≠ Status.publishing := by
  decide

/-- Claim C6, amended: the fallback poller does not run the distributed
DispatchEngine state machine: it drives a due item straight from
`scheduled` to a terminal state in one attempt — `published` on success,
`failed` on any raise — with no intermediate `publishing` state, no
retry and no backoff. -/
theorem legacy_single_attempt_terminal (it : ContentItem)
    (pub : Option String) (now : Int) :
    (fireScheduledPostLegacyItem it pub now).status
        = (match pub with
           | some _ => Status.published
           | none => Status.failed) ∧
    (fireScheduledPostLegacyItem it pub now).status ≠ Status.publishing := by
  rcases pub with _ | pid <;> simp [fireScheduledPostLegacyItem]

/-- Claim C7: in distributed mode, an explicit schedule request whose
target is at most 5 minutes away eagerly enqueues the very task the
sweep would build for the updated row — dedup key `publish-<id>` and
countdown `max(0, scheduled_at - now)` — and when that enqueue raises,
the error is swallowed: the request still returns `scheduled` with the
row left in status `scheduled` and nothing enqueued. -/
theorem schedule_route_eager_enqueue (contentId userId : String)
    (it : ContentItem) (schedAt now : Int)
    (hid : it.id = contentId) (huser : it.userId = userId)
    (hpub : it.status ≠ Status.published) (hnear : schedAt - now ≤ 300) :
    schedule_content contentId userId (some it) schedAt now true false
      = Except.ok
          { item := scheduledUpdate it schedAt now,
            enqueued := some (sweepTaskOf (scheduledUpdate it schedAt now) now),
            response := "scheduled" } ∧
    (sweepTaskOf (scheduledUpdate it schedAt now) now).taskId
      = "publish-" ++ contentId ∧
    (sweepTaskOf (scheduledUpdate it schedAt now) now).countdown
      = max 0 (schedAt - now) ∧
    schedule_content contentId userId (some it) schedAt now true true
      = Except.ok
          { item := scheduledUpdate it schedAt now,
            enqueued := none,
            response := "scheduled" } := by
  have hle : max 0 (schedAt - now) ≤ 300 := max_le (by norm_num) hnear
  refine ⟨?_, ?_, ?_, ?_⟩
  · simp [schedule_content, sweepTaskOf, scheduledUpdate, hpub, hle, hid, huser]
  · simp [sweepTaskOf, scheduledUpdate, hid]
  · simp [sweepTaskOf, scheduledUpdate]
  · simp [schedule_content, hpub, hle]

/-- Claim C7, witness at a concrete request due 100 seconds out. -/
theorem schedule_route_eager_enqueue_witness :
    schedule_content "item-1" "user-1" (some sampleScheduled) 100 0 true false
      = Except.ok
          { item := scheduledUpdate sampleScheduled 100 0,
            enqueued := some (sweepTaskOf (scheduledUpdate sampleScheduled 100 0) 0),
            response := "scheduled" } ∧
    (sweepTaskOf (scheduledUpdate sampleScheduled 100 0) 0).taskId
      = "publish-" ++ "item-1" ∧
    (sweepTaskOf (scheduledUpdate sampleScheduled 100 0) 0).countdown
      = max 0 (100 - 0) ∧
    schedule_content "item-1" "user-1" (some sampleScheduled) 100 0 true true
      = Except.ok
          { item := scheduledUpdate sampleScheduled 100 0,
            enqueued := none,
            response := "scheduled" } :=
  schedule_route_eager_enqueue "item-1" "user-1" sampleScheduled 100 0
    rfl rfl (by decide) (by decide)

/-- Claim C8: the sweep task is on the Beat schedule every 120 seconds;
its query selects exactly the rows with status `scheduled` and
`scheduled_at <= now + 3 minutes`; each selected row is fanned out as one
task whose dedup key is `publish-<id>` and whose countdown is
`max(0, scheduled_at - now)` — 0 when `scheduled_at` is missing or
unparsable. -/
theorem sweep_cadence_selection_delay (rows : List ContentItem)
    (now : Int) (mLE : String → Bool) :
    ("app.tasks.enqueue_due_posts", Cadence.everySeconds 120) ∈ beat_schedule ∧
    (∀ it : ContentItem,
      it ∈ dbSelectDue rows (now + 3 * 60) mLE ↔
        (it ∈ rows ∧ it.status = Status.scheduled ∧
          schedStampLE it.scheduledAt (now + 180) mLE = true)) ∧
    enqueue_due_posts rows now mLE
      = (dbSelectDue rows (now + 180) mLE).map (fun post => sweepTaskOf post now) ∧
    (∀ post : ContentItem,
      (sweepTaskOf post now).taskId = "publish-" ++ post.id) ∧
    (∀ post : ContentItem, ∀ t : Int,
      post.scheduledAt = some (SchedStamp.iso t) →
        (sweepTaskOf post now).countdown = max 0 (t - now)) ∧
    (∀ post : ContentItem,
      (post.scheduledAt = none ∨
        (∃ s, post.scheduledAt = some (SchedStamp.malformed s))) →
        (sweepTaskOf post now).countdown = 0) := by
  refine ⟨by simp [beat_schedule], ?_, ?_, ?_, ?_, ?_⟩
  · intro it
    norm_num [dbSelectDue, List.mem_filter, and_assoc]
  · norm_num [enqueue_due_posts]
  · intro post
    simp [sweepTaskOf]
  · intro post t hp
    simp [sweepTaskOf, hp]
  · intro post hp
    rcases hp with hp | ⟨s, hp⟩ <;> simp [sweepTaskOf, hp]

/-- Claim C9: the fallback APScheduler runs the expired-email purge
hourly and tasks.py registers `app.tasks.purge_expired_emails` as a
Celery task, but the distributed Beat schedule never schedules it — in
distributed mode no expired-email purge runs. -/
theorem distributed_beat_omits_email_purge :
    "app.tasks.purge_expired_emails" ∉ beat_schedule.map Prod.fst ∧
    ("purge_expired_emails", Cadence.everyHours 1) ∈ apschedulerJobs ∧
    "app.tasks.purge_expired_emails" ∈ celerySharedTasks := by
  decide

/-- Claim C10: every publish performed by the fallback poller is
text-only: the poll query projects each due row to only id, user id and
body, and every Publisher invocation of a poll tick carries
`image_bytes = None` — also for due items that have an image reference
attached, since every due `scheduled` row produces such a call. -/
theorem legacy_poll_text_only (rows : List ContentItem) (now : Int)
    (mLE : String → Bool) :
    (∀ p : LegacyDueRow,
      p ∈ fireScheduledQuery rows now mLE →
        ∃ it : ContentItem, it ∈ rows ∧ it.status = Status.scheduled ∧
          p = { id := it.id, userId := it.userId, body := it.body }) ∧
    (∀ c : PublishCall,
      c ∈ legacyPublishCalls rows now mLE → c.imageBytes = none) ∧
    (∀ it : ContentItem,
      it ∈ rows → it.status = Status.scheduled →
        schedStampLE it.scheduledAt now mLE = true →
        ({ userId := it.userId, text := it.body, imageBytes := none } : PublishCall)
          ∈ legacyPublishCalls rows now mLE) := by
  refine ⟨?_, ?_, ?_⟩
  · intro p hp
    simp [fireScheduledQuery, List.mem_filter] at hp
    obtain ⟨it, ⟨hmem, hstat, _⟩, rfl⟩ := hp
    exact ⟨it, hmem, hstat, rfl⟩
  · intro c hc
    simp [legacyPublishCalls, legacyPublishCallOf,
      publish_post_default_image] at hc
    obtain ⟨p, _, rfl⟩ := hc
    rfl
  · intro it hmem hstat hsched
    simp [legacyPublishCalls, legacyPublishCallOf,
      publish_post_default_image, fireScheduledQuery, List.mem_filter]
    exact ⟨it, ⟨hmem, hstat, hsched⟩, rfl, rfl⟩

end LinkedinWarrior
